import Mathlib

/- Verification of the template-to-event date transformation and batch
materialization pipeline of the auto-notion-scheduler repository
(src/utils/dateHelper.js, src/utils/errorHandler.js, src/jobs/generateWeek.js,
src/services/notionService.js).

Modelling conventions.  A JavaScript Date is identified by its local
wall-clock milliseconds since the Unix epoch (an integer).  The ambient
JavaScript runtime has a fixed UTC offset envOff, the number of minutes the
local clock is ahead of UTC (America/Bogota is -300; it observes no
daylight saving).  The absolute UTC milliseconds of a Date value d are
d - envOff * 60000 (Date.prototype.getTime).  An ISO-8601 UTC serialization
(toISOString) is modelled by the UTC milliseconds the string denotes, which
determines the string uniquely.  Integer division and remainder are
Euclidean (floor semantics for the positive divisors used here), matching
how calendar fields of a millisecond timestamp are computed.

Fallible JavaScript code is modelled with Except String (thrown Error,
identified by its message) and invalid Dates (NaN timestamps) with
Option Int, where none is an Invalid Date; toISOString throws on an
Invalid Date.  Network effects are modelled by oracle parameters: the
outcome of the connectivity check, of the template fetch, and of each
write attempt are inputs of the model. -/

set_option linter.unusedVariables false

namespace AutoNotion

def msPerMinute : Int := 60000

def msPerHour : Int := 3600000

def msPerDay : Int := 86400000

/- String constants appearing in the source (error messages, day names,
timezone labels) and concrete strings used by witnesses. -/

def emptyStr : String := ""

def tzBogota : String := "America/Bogota"

def tzMexicoCity : String := "America/Mexico_City"

def tzUTCLabel : String := "UTC"

def invalidDayMsg : String := "Día no válido: "

def invalidTimeValueMsg : String := "Invalid time value"

def createEventErrMsg : String := "No se pudo crear el evento: "

def autoNotesMsg : String := "Generado automáticamente desde plantilla"

def undefinedMsg : String := "undefined"

def dnSunday : String := "Sunday"

def dnMonday : String := "Monday"

def dnTuesday : String := "Tuesday"

def dnWednesday : String := "Wednesday"

def dnThursday : String := "Thursday"

def dnFriday : String := "Friday"

def dnSaturday : String := "Saturday"

def dnDomingo : String := "Domingo"

def dnLunes : String := "Lunes"

def dnMartes : String := "Martes"

def dnMiercoles : String := "Miércoles"

def dnJueves : String := "Jueves"

def dnViernes : String := "Viernes"

def dnSabado : String := "Sábado"

/-- JavaScript Date.prototype.getDay on a local timestamp: 0 = Sunday ...
6 = Saturday.  Day 0 of the epoch (1970-01-01) was a Thursday (4). -/
def jsGetDay (t : Int) : Int := (t / msPerDay + 4) % 7

/-- date-fns startOfWeek with weekStartsOn = 1: move back to the most recent
Monday and truncate the time of day to local midnight. -/
def startOfWeekMonday (t : Int) : Int :=
  (t / msPerDay - (jsGetDay t - 1 + 7) % 7) * msPerDay

/-- date-fns addWeeks: w weeks is 7 * w calendar days, wall clock preserved. -/
def addWeeksJs (t : Int) (w : Int) : Int := t + w * 7 * msPerDay

/-- dateHelper.getNextWeekStart: startOfWeek(addWeeks(referenceDate, 1),
weekStartsOn 1).  The source defaults referenceDate to the current instant;
the model takes it as the parameter t. -/
def getNextWeekStart (t : Int) : Int := startOfWeekMonday (addWeeksJs t 1)

/-- Spec-side definition, from the words of the specification: the local
midnight of the Monday of the week after the week containing t, where weeks
are Monday-anchored. -/
def specFollowingWeekMonday (t : Int) : Int := startOfWeekMonday t + 7 * msPerDay

/-- dateHelper.dayNameToIndex: the 14-token case-sensitive day-name table
(7 English plus 7 Spanish names), unrecognized names give -1 (the source
writes days[dayName] ?? -1). -/
def dayNameToIndex (dayName : String) : Int :=
  if dayName = dnSunday ∨ dayName = dnDomingo then 0
  else if dayName = dnMonday ∨ dayName = dnLunes then 1
  else if dayName = dnTuesday ∨ dayName = dnMartes then 2
  else if dayName = dnWednesday ∨ dayName = dnMiercoles then 3
  else if dayName = dnThursday ∨ dayName = dnJueves then 4
  else if dayName = dnFriday ∨ dayName = dnViernes then 5
  else if dayName = dnSaturday ∨ dayName = dnSabado then 6
  else -1

/-- The daysToAdd computation in dateHelper.getNextWeekDayDate:
dayIndex - 1, and + 7 when that is negative (Sunday). -/
def daysToAddFor (dayIndex : Int) : Int :=
  if dayIndex - 1 < 0 then dayIndex - 1 + 7 else dayIndex - 1

/-- The date built by getNextWeekDayDate for a valid day index: copy
nextWeekStart, setDate(getDate() + daysToAdd), then setHours(0,0,0,0),
modelled as adding whole days and truncating to local midnight. -/
def nextWeekTarget (now : Int) (dayIndex : Int) : Int :=
  ((getNextWeekStart now + daysToAddFor dayIndex * msPerDay) / msPerDay) * msPerDay

/-- dateHelper.getNextWeekDayDate: resolves the day name and throws
Error(Día no válido) on an unrecognized name.  The source reads the current
instant internally via getNextWeekStart(); the model takes it as now. -/
def getNextWeekDayDate (now : Int) (dayName : String) : Except String Int :=
  if dayNameToIndex dayName = -1 then Except.error (invalidDayMsg ++ dayName)
  else Except.ok (nextWeekTarget now (dayNameToIndex dayName))

/-- JavaScript Date.prototype.setHours(h) on a local timestamp: replace the
hour field, keeping the calendar day start and the within-hour remainder;
out-of-range h rolls the date over, as in JavaScript. -/
def setHours (d : Int) (h : Int) : Int :=
  (d / msPerDay) * msPerDay + h * msPerHour + (d % msPerDay) % msPerHour

/-- JavaScript Date.prototype.setMinutes(m): replace the minute field. -/
def setMinutes (d : Int) (m : Int) : Int :=
  (d / msPerHour) * msPerHour + m * msPerMinute + (d % msPerHour) % msPerMinute

/-- JavaScript Date.prototype.setSeconds(s): replace the second field. -/
def setSeconds (d : Int) (s : Int) : Int :=
  (d / msPerMinute) * msPerMinute + s * 1000 + d % 1000

/-- JavaScript Date.prototype.setMilliseconds(x). -/
def setMilliseconds (d : Int) (x : Int) : Int :=
  (d / 1000) * 1000 + x

/-- The numeric core of dateHelper.parseTimeToDate after the split: the
setter chain setHours, setMinutes, setSeconds 0, setMilliseconds 0 applied
to a copy of the base date. -/
def parseTimeToDate (base h m : Int) : Int :=
  setMilliseconds (setSeconds (setMinutes (setHours base h) m) 0) 0

/-- JavaScript String.prototype.split with separator ":", over the character
list of the string.  split of the empty string is one empty field. -/
def splitOnColon : List Char → List (List Char)
  | [] => [[]]
  | c :: rest =>
    let r := splitOnColon rest
    if c = ':' then [] :: r
    else
      match r with
      | [] => [[c]]
      | g :: gs => (c :: g) :: gs

def parseDigitsAux : List Char → Nat → Option Nat
  | [], acc => some acc
  | c :: rest, acc =>
    if c.isDigit then parseDigitsAux rest (acc * 10 + (c.toNat - 48)) else none

def parseDigits : List Char → Option Nat
  | [] => none
  | cs => parseDigitsAux cs 0

/-- JavaScript Number() on the strings this program feeds it (decimal
integer fields of a time string): the empty string is 0, an optionally
negated digit string is its value, anything else is NaN (none). -/
def jsNumber (s : List Char) : Option Int :=
  match s with
  | [] => some 0
  | '-' :: rest => (parseDigits rest).map (fun n => -(n : Int))
  | _ => (parseDigits s).map (fun n => (n : Int))

def strChars (s : String) : List Char := s.data

/-- dateHelper.parseTimeToDate: timeString.split(colon).map(Number), then
destructure the first two fields and run the setter chain.  A missing or
NaN field makes every setter return NaN, so the result is an Invalid Date
(none); no error is thrown here and no range check is performed. -/
def parseTimeToDateS (base : Int) (timeString : String) : Option Int :=
  match (splitOnColon (strChars timeString)).map jsNumber with
  | some h :: some m :: _ => some (parseTimeToDate base h m)
  | _ => none

/-- dateHelper.calculateEndDate: date-fns addMinutes, on a possibly invalid
start date. -/
def calculateEndDate (startDate : Option Int) (duration : Int) : Option Int :=
  startDate.map (fun t => t + duration * msPerMinute)

/-- Date.prototype.getTime: absolute UTC milliseconds of a local timestamp
in a runtime whose local clock is envOff minutes ahead of UTC. -/
def getTime (envOff : Int) (localMs : Int) : Int := localMs - envOff * msPerMinute

/-- new Date(utcMs): the local timestamp denoting the given UTC instant. -/
def dateFromTime (envOff : Int) (utcMs : Int) : Int := utcMs + envOff * msPerMinute

/-- dateHelper.formatForNotion: toISOString, which throws a RangeError
(Invalid time value) on an Invalid Date.  The serialized string is
identified by the UTC milliseconds it denotes. -/
def formatForNotion (envOff : Int) (date : Option Int) : Except String Int :=
  match date with
  | none => Except.error invalidTimeValueMsg
  | some localMs => Except.ok (getTime envOff localMs)

/-- The date property Notion receives: serialized start and end plus the
time_zone label. -/
structure NotionDateRange where
  start : Int
  «end» : Int
  time_zone : String

/-- The offsetHours constant of dateHelper.createNotionDateObject.  The
adjacent source comment states Colombia is five hours behind UTC, yet the
constant is -1. -/
def offsetHoursNotion : Int := -1

/-- The adjusted date of createNotionDateObject:
new Date(date.getTime() + offsetHours * 3600000), on a possibly invalid
date. -/
def adjustForNotion (envOff : Int) (date : Option Int) : Option Int :=
  date.map (fun t => dateFromTime envOff (getTime envOff t + offsetHoursNotion * msPerHour))

/-- dateHelper.createNotionDateObject: apply the fixed offset adjustment to
both endpoints, serialize both with formatForNotion, and attach the
timezone label (the source defaults the label to America/Bogota and every
caller uses that default). -/
def createNotionDateObject (envOff : Int) (startDate endDate : Option Int)
    (timezone : String) : Except String NotionDateRange :=
  match formatForNotion envOff (adjustForNotion envOff startDate),
      formatForNotion envOff (adjustForNotion envOff endDate) with
  | Except.ok s, Except.ok e => Except.ok { start := s, «end» := e, time_zone := timezone }
  | Except.error err, _ => Except.error err
  | _, Except.error err => Except.error err

/-- Spec-side observation: the UTC offset in minutes of a timezone label,
for the labels this repository mentions (America/Bogota observes no
daylight saving). -/
def tzOffsetMinutes (label : String) : Int :=
  if label = tzBogota then -300
  else if label = tzMexicoCity then -360
  else 0

/-- Spec-side observation, from the round-trip wording of the claim:
reinterpret a serialized value as UTC and redisplay it as a wall clock in
the given timezone label. -/
def displayedWallClock (label : String) (utcMs : Int) : Int :=
  utcMs + tzOffsetMinutes label * msPerMinute

/-- The hour-of-day field of a wall-clock timestamp. -/
def hourOfDay (localMs : Int) : Int := (localMs % msPerDay) / msPerHour

/-- The minute-of-hour field of a wall-clock timestamp. -/
def minuteOfHour (localMs : Int) : Int := (localMs % msPerHour) / msPerMinute

/-- A normalized template task as produced by
notionService.parseTemplatePage. -/
structure Task where
  id : String
  name : String
  day : String
  time : String
  duration : Int
  notes : String

/-- A calendar event ready to be written, as built by
generateWeek.transformTaskToEvent. -/
structure NotionEvent where
  name : String
  date : NotionDateRange
  notes : String

/-- generateWeek.transformTaskToEvent: resolve the day of next week, set
the wall-clock time, add the duration, and package the Notion date object;
any thrown error is logged and rethrown, so it surfaces as the Except
error.  The notes fall back to the generated placeholder when empty
(JavaScript truthiness of task.notes). -/
def transformTaskToEvent (envOff now : Int) (task : Task) : Except String NotionEvent :=
  match getNextWeekDayDate now task.day with
  | Except.error e => Except.error e
  | Except.ok dayDate =>
    match createNotionDateObject envOff (parseTimeToDateS dayDate task.time)
        (calculateEndDate (parseTimeToDateS dayDate task.time) task.duration) tzBogota with
    | Except.error e => Except.error e
    | Except.ok notionDate =>
      Except.ok
        { name := task.name, date := notionDate,
          notes := if task.notes = emptyStr then autoNotesMsg else task.notes }

/-- The loop body of errorHandler.retryOperation, by remaining attempts:
fn is the outcome of each attempt (numbered from i), lastError the error of
the previous attempt.  Returns the overall outcome, the number of attempts
executed, and the list of waits (delay * attemptNumber) performed between
consecutive attempts.  When the loop ends with no attempt left it throws
lastError (undefined when no attempt ran). -/
def retryAux (fn : Nat → Except String Unit) (delay i : Nat) (lastError : Option String) :
    Nat → Except String Unit × Nat × List Nat
  | 0 => (Except.error (lastError.getD undefinedMsg), 0, [])
  | remaining + 1 =>
    match fn i with
    | Except.ok a => (Except.ok a, 1, [])
    | Except.error e =>
      let r := retryAux fn delay (i + 1) (some e) remaining
      if remaining = 0 then (r.1, r.2.1 + 1, r.2.2)
      else (r.1, r.2.1 + 1, delay * (i + 1) :: r.2.2)

/-- errorHandler.retryOperation(fn, maxRetries, delay). -/
def retryOperation (fn : Nat → Except String Unit) (maxRetries delay : Nat) :
    Except String Unit × Nat × List Nat :=
  retryAux fn delay 0 none maxRetries

/-- The delays the retry loop performs before each of the attempts
2 .. k+1: delay times the number of the attempt that failed. -/
def delaysUpTo (d k : Nat) : List Nat := (List.range k).map (fun i => d * (i + 1))

/-- notionService.createCalendarEvent: one write wrapped in
retryOperation with its default maxRetries = 3 and delay = 1000; a final
failure is rethrown as NotionError(No se pudo crear el evento) carrying the
processed message of the last error.  The attempt outcomes are the oracle
fn. -/
def createCalendarEvent (fn : Nat → Except String Unit) : Except String Unit :=
  match (retryOperation fn 3 1000).1 with
  | Except.ok a => Except.ok a
  | Except.error e => Except.error (createEventErrMsg ++ e)

/-- The accumulated outcome of notionService.createCalendarEventsBatch:
successfully written events and (event, error message) pairs for final
failures. -/
structure BatchResult where
  success : List NotionEvent
  errors : List (NotionEvent × String)

/-- notionService.createCalendarEventsBatch: write the events sequentially,
collecting each failure and continuing with the remaining events.
attemptsFor gives the outcome of each write attempt for each event. -/
def createCalendarEventsBatch (attemptsFor : NotionEvent → Nat → Except String Unit) :
    List NotionEvent → BatchResult
  | [] => { success := [], errors := [] }
  | e :: rest =>
    match createCalendarEvent (attemptsFor e) with
    | Except.ok _ =>
      let r := createCalendarEventsBatch attemptsFor rest
      { success := e :: r.success, errors := r.errors }
    | Except.error err =>
      let r := createCalendarEventsBatch attemptsFor rest
      { success := r.success, errors := (e, err) :: r.errors }

/-- The externally visible actions of one generateWeek run, in order. -/
inductive RunStep where
  | verifyConn : RunStep
  | fetchTemplates : RunStep
  | writeEvent : String → RunStep

/-- The result object generateWeek returns on its normal paths. -/
structure RunResult where
  success : Bool
  created : Nat
  failed : Nat
  errors : List (String × String)

/-- The transformation loop of generateWeek step 3: tasks whose transform
succeeds become events, in order; failures are collected with their task
into transformErrors. -/
def transformLoop (envOff now : Int) : List Task → List NotionEvent × List (Task × String)
  | [] => ([], [])
  | t :: rest =>
    let r := transformLoop envOff now rest
    match transformTaskToEvent envOff now t with
    | Except.ok ev => (ev :: r.1, r.2)
    | Except.error e => (r.1, (t, e) :: r.2)

/-- jobs/generateWeek.generateWeek.  The connectivity check, the template
fetch and the per-event write attempts are oracle inputs; cfgTimezone is
the TIMEZONE configuration value, which (as in the source) the pipeline
never consults.  On a fatal error the catch block calls handleError, which
rethrows, so the run ends in Except.error (the literal failure object after
the handleError call is unreachable in the source).  The transformErrors
list of step 3 is only logged: the returned result counts and reports only
write errors.  The second component records which external actions ran. -/
def generateWeek (cfgTimezone : String) (envOff now : Int)
    (verifyOut : Except String Unit)
    (fetchOut : Except String (List Task))
    (attemptsFor : NotionEvent → Nat → Except String Unit) :
    Except String RunResult × List RunStep :=
  match verifyOut with
  | Except.error e => (Except.error e, [RunStep.verifyConn])
  | Except.ok _ =>
    match fetchOut with
    | Except.error e => (Except.error e, [RunStep.verifyConn, RunStep.fetchTemplates])
    | Except.ok templateTasks =>
      if templateTasks.length = 0 then
        (Except.ok { success := true, created := 0, failed := 0, errors := [] },
         [RunStep.verifyConn, RunStep.fetchTemplates])
      else
        (Except.ok
          { success := true,
            created := (createCalendarEventsBatch attemptsFor
              (transformLoop envOff now templateTasks).1).success.length,
            failed := (createCalendarEventsBatch attemptsFor
              (transformLoop envOff now templateTasks).1).errors.length,
            errors := (createCalendarEventsBatch attemptsFor
              (transformLoop envOff now templateTasks).1).errors.map
                (fun p => (p.1.name, p.2)) },
         [RunStep.verifyConn, RunStep.fetchTemplates] ++
           (transformLoop envOff now templateTasks).1.map
             (fun ev => RunStep.writeEvent ev.name))

/-- notionService createCalendarEvent sends
time_zone: date.time_zone || America/Mexico_City; the fallback fires only
when the field is falsy (empty). -/
def writtenTimeZone (date : NotionDateRange) : String :=
  if date.time_zone = emptyStr then tzMexicoCity else date.time_zone

/-- notionService.extractNumber over the optional number property of a
page: null when the property is absent or its number is null. -/
def extractNumber (property : Option (Option Int)) : Option Int :=
  match property with
  | none => none
  | some v => v

/-- The Duration normalization of notionService.parseTemplatePage:
extractNumber(properties.Duration) || 60, where the JavaScript or-else
takes the fallback exactly on falsy values (null or 0 here). -/
def parseTemplateDuration (property : Option (Option Int)) : Int :=
  match extractNumber property with
  | none => 60
  | some v => if v = 0 then 60 else v

/- Concrete values used by counterexamples and witnesses. -/

def envBogota : Int := -300

def dnFunday : String := "Funday"

def time0500 : String := "05:00"

def time0530 : String := "05:30"

def time0900 : String := "09:00"

def time1000 : String := "10:00"

def time2500 : String := "25:00"

def timeXX : String := "xx"

def nameParty : String := "Party"

def nameStandup : String := "Standup"

def errA : String := "first failure"

def errB : String := "second failure"

def fundayTask : Task :=
  { id := emptyStr, name := nameParty, day := dnFunday, time := time1000,
    duration := 60, notes := emptyStr }

def badTimeTask : Task :=
  { id := emptyStr, name := nameStandup, day := dnMonday, time := timeXX,
    duration := 30, notes := emptyStr }

def standupTask : Task :=
  { id := emptyStr, name := nameStandup, day := dnMonday, time := time0900,
    duration := 30, notes := emptyStr }

def allOkWrites : NotionEvent → Nat → Except String Unit := fun _ _ => Except.ok ()

def failWrites : NotionEvent → Nat → Except String Unit := fun _ _ => Except.error errA

def fnTwoFailThenOk : Nat → Except String Unit :=
  fun n => if n = 0 then Except.error errA
    else if n = 1 then Except.error errB
    else Except.ok ()

/- Helper lemmas. -/

/-- The setter chain of parseTimeToDate always lands on the hour h and
minute m of the calendar day of base (with rollover folded into the linear
formula). -/
theorem parseTimeToDate_eq (base h m : Int) :
    parseTimeToDate base h m =
      (base / msPerDay) * msPerDay + h * msPerHour + m * msPerMinute := by
  simp only [parseTimeToDate, setMilliseconds, setSeconds, setMinutes, setHours,
    msPerDay, msPerHour, msPerMinute]
  omega

/-- The code computation startOfWeek(addWeeks(t, 1)) equals the Monday of
the week after the week containing t. -/
theorem getNextWeekStart_eq_spec (t : Int) :
    getNextWeekStart t = specFollowingWeekMonday t := by
  simp only [getNextWeekStart, specFollowingWeekMonday, startOfWeekMonday, addWeeksJs,
    jsGetDay, msPerDay]
  omega

/-- The spec-side Monday is a Monday at local midnight, later than the day
of t and at most seven days after it. -/
theorem specFollowingWeekMonday_props (t : Int) :
    jsGetDay (specFollowingWeekMonday t) = 1 ∧
    specFollowingWeekMonday t % msPerDay = 0 ∧
    (t / msPerDay) * msPerDay < specFollowingWeekMonday t ∧
    specFollowingWeekMonday t ≤ (t / msPerDay) * msPerDay + 7 * msPerDay := by
  simp only [specFollowingWeekMonday, startOfWeekMonday, jsGetDay, msPerDay]
  omega

/-- dayNameToIndex returns -1 or an index between 0 and 6. -/
theorem dayNameToIndex_cases (s : String) :
    dayNameToIndex s = -1 ∨ (0 ≤ dayNameToIndex s ∧ dayNameToIndex s ≤ 6) := by
  unfold dayNameToIndex
  split_ifs <;> omega

/-- Position of the target date computed for a valid day index. -/
theorem nextWeekTarget_props (now idx : Int) (h0 : 0 ≤ idx) (h6 : idx ≤ 6) :
    specFollowingWeekMonday now ≤ nextWeekTarget now idx ∧
    nextWeekTarget now idx < specFollowingWeekMonday now + 7 * msPerDay ∧
    (nextWeekTarget now idx) % msPerDay = 0 ∧
    jsGetDay (nextWeekTarget now idx) = idx ∧
    nextWeekTarget now idx = specFollowingWeekMonday now + ((idx - 1 + 7) % 7) * msPerDay := by
  simp only [nextWeekTarget, daysToAddFor, getNextWeekStart, specFollowingWeekMonday,
    startOfWeekMonday, addWeeksJs, jsGetDay, msPerDay]
  split <;> omega

/-- Claim C1: for every reference instant and every name accepted by the
day table, getNextWeekDayDate returns a date at local midnight lying
strictly within the 7-day window that starts on the Monday of the week
after the week containing the reference; its weekday equals the requested
index, at offset (weekdayIndex - 1 + 7) mod 7 days from that Monday. -/
theorem getNextWeekDayDate_spec (now : Int) (dayName : String) (t : Int)
    (h : getNextWeekDayDate now dayName = Except.ok t) :
    specFollowingWeekMonday now ≤ t ∧
    t < specFollowingWeekMonday now + 7 * msPerDay ∧
    t % msPerDay = 0 ∧
    jsGetDay t = dayNameToIndex dayName ∧
    t = specFollowingWeekMonday now + ((dayNameToIndex dayName - 1 + 7) % 7) * msPerDay := by
  rcases dayNameToIndex_cases dayName with hneg | ⟨h0, h6⟩
  · simp [getNextWeekDayDate, hneg] at h
  · have hne : ¬ dayNameToIndex dayName = -1 := by omega
    simp only [getNextWeekDayDate, if_neg hne, Except.ok.injEq] at h
    subst h
    exact nextWeekTarget_props now (dayNameToIndex dayName) h0 h6

/-- Witness for C1 at reference instant 0 and day Monday. -/
theorem getNextWeekDayDate_spec_witness :
    getNextWeekDayDate 0 dnMonday = Except.ok 345600000 ∧
    (specFollowingWeekMonday 0 ≤ 345600000 ∧
     (345600000 : Int) < specFollowingWeekMonday 0 + 7 * msPerDay ∧
     (345600000 : Int) % msPerDay = 0 ∧
     jsGetDay 345600000 = dayNameToIndex dnMonday ∧
     (345600000 : Int) =
       specFollowingWeekMonday 0 + ((dayNameToIndex dnMonday - 1 + 7) % 7) * msPerDay) :=
  ⟨by rfl, getNextWeekDayDate_spec 0 dnMonday 345600000 (by rfl)⟩

/-- Claim C2 (documenting the code bug): a task at wall clock 05:00 in a
Bogota runtime serializes through createNotionDateObject to a value that,
reinterpreted as UTC and redisplayed in America/Bogota, shows 04:00
instead of the supplied 05:00: the fixed offsetHours = -1 does not
implement the five-hour compensation the adjacent source comment
describes, so the round trip loses one hour. -/
theorem createNotionDateObject_roundtrip_failing :
    parseTimeToDateS 0 time0500 = some 18000000 ∧
    hourOfDay 18000000 = 5 ∧ minuteOfHour 18000000 = 0 ∧
    calculateEndDate (some 18000000) 60 = some 21600000 ∧
    createNotionDateObject envBogota (some 18000000) (some 21600000) tzBogota =
      Except.ok { start := 32400000, «end» := 36000000, time_zone := tzBogota } ∧
    hourOfDay (displayedWallClock tzBogota 32400000) = 4 ∧
    minuteOfHour (displayedWallClock tzBogota 32400000) = 0 :=
  ⟨rfl, rfl, rfl, rfl, rfl, rfl, rfl⟩

/-- Counterexample for C4: the out-of-range time string 25:00 is not
rejected: parseTimeToDate returns a real date, rolled over to hour 1 of
the following day, and no error of any kind is raised. -/
theorem parseTimeToDate_no_validation :
    parseTimeToDateS 0 time2500 = some 90000000 ∧
    (90000000 : Int) / msPerDay = 1 ∧
    hourOfDay 90000000 = 1 :=
  ⟨rfl, rfl, rfl⟩

/-- Claim C4 as amended: parseTimeToDate performs no validation and never
raises an error; for every time string whose first two colon-separated
fields are numerals h in 0..23 and m in 0..59, it returns the base
calendar day with hour h, minute m, and seconds and sub-seconds zero. -/
theorem parseTimeToDate_valid_time (base : Int) (s : String) (h m : Int)
    (rest : List (Option Int))
    (hs : (splitOnColon (strChars s)).map jsNumber = some h :: some m :: rest)
    (hh0 : 0 ≤ h) (hh : h < 24) (hm0 : 0 ≤ m) (hm : m < 60) :
    parseTimeToDateS base s = some (parseTimeToDate base h m) ∧
    (parseTimeToDate base h m) / msPerDay = base / msPerDay ∧
    hourOfDay (parseTimeToDate base h m) = h ∧
    minuteOfHour (parseTimeToDate base h m) = m ∧
    (parseTimeToDate base h m) % msPerMinute = 0 := by
  refine ⟨?_, ?_, ?_, ?_, ?_⟩
  · unfold parseTimeToDateS
    rw [hs]
  all_goals
    rw [parseTimeToDate_eq]
    simp only [hourOfDay, minuteOfHour, msPerDay, msPerHour, msPerMinute]
    omega

/-- Witness for C4 as amended, at base 0 and the string 05:30. -/
theorem parseTimeToDate_valid_time_witness :
    ((splitOnColon (strChars time0530)).map jsNumber = some 5 :: some 30 :: [] ∧
     (0 : Int) ≤ 5 ∧ (5 : Int) < 24 ∧ (0 : Int) ≤ 30 ∧ (30 : Int) < 60) ∧
    (parseTimeToDateS 0 time0530 = some (parseTimeToDate 0 5 30) ∧
     (parseTimeToDate 0 5 30) / msPerDay = (0 : Int) / msPerDay ∧
     hourOfDay (parseTimeToDate 0 5 30) = 5 ∧
     minuteOfHour (parseTimeToDate 0 5 30) = 30 ∧
     (parseTimeToDate 0 5 30) % msPerMinute = 0) :=
  ⟨⟨by decide, by decide, by decide, by decide, by decide⟩,
   parseTimeToDate_valid_time 0 time0530 5 30 [] (by decide)
     (by decide) (by decide) (by decide) (by decide)⟩

/-- Claim C7: calculateEndDate adds exactly the duration in minutes, so
for every positive duration the end instant is strictly after the start
and exactly duration times 60 seconds later. -/
theorem calculateEndDate_adds_duration (s d : Int) (hd : 0 < d) :
    calculateEndDate (some s) d = some (s + d * msPerMinute) ∧
    s < s + d * msPerMinute ∧
    (s + d * msPerMinute) - s = d * 60 * 1000 := by
  refine ⟨rfl, ?_, ?_⟩ <;> simp only [msPerMinute] <;> omega

/-- Witness for C7 at start 0 and duration 30. -/
theorem calculateEndDate_adds_duration_witness :
    (0 : Int) < 30 ∧
    (calculateEndDate (some 0) 30 = some ((0 : Int) + 30 * msPerMinute) ∧
     (0 : Int) < 0 + 30 * msPerMinute ∧
     ((0 : Int) + 30 * msPerMinute) - 0 = 30 * 60 * 1000) :=
  ⟨by decide, calculateEndDate_adds_duration 0 30 (by decide)⟩

/-- Claim C10: the Duration normalization maps an absent property, a null
number and the number 0 to the default 60 minutes, and passes every other
number, including negative ones, through unchanged. -/
theorem parseTemplateDuration_spec (n : Int) (hn : n ≠ 0) :
    parseTemplateDuration none = 60 ∧
    parseTemplateDuration (some none) = 60 ∧
    parseTemplateDuration (some (some 0)) = 60 ∧
    parseTemplateDuration (some (some n)) = n := by
  refine ⟨rfl, rfl, rfl, ?_⟩
  simp [parseTemplateDuration, extractNumber, hn]

/-- Witness for C10 at the negative duration -30. -/
theorem parseTemplateDuration_spec_witness :
    (-30 : Int) ≠ 0 ∧
    (parseTemplateDuration none = 60 ∧
     parseTemplateDuration (some none) = 60 ∧
     parseTemplateDuration (some (some 0)) = 60 ∧
     parseTemplateDuration (some (some (-30))) = -30) :=
  ⟨by decide, parseTemplateDuration_spec (-30) (by decide)⟩

/-- A task with an unrecognized day name fails its transform with the
Día no válido error of getNextWeekDayDate. -/
theorem transform_invalid_day (envOff now : Int) (t : Task)
    (h : dayNameToIndex t.day = -1) :
    transformTaskToEvent envOff now t = Except.error (invalidDayMsg ++ t.day) := by
  simp [transformTaskToEvent, getNextWeekDayDate, h]

/-- A task whose transform succeeds contributes its event to the
transformation loop output. -/
theorem transformLoop_ok_mem (envOff now : Int) (tasks : List Task) (t : Task)
    (ev : NotionEvent) (ht : t ∈ tasks)
    (h : transformTaskToEvent envOff now t = Except.ok ev) :
    ev ∈ (transformLoop envOff now tasks).1 := by
  induction tasks with
  | nil => cases ht
  | cons hd tl ih =>
    cases List.mem_cons.mp ht with
    | inl heq =>
      subst heq
      simp [transformLoop, h]
    | inr hmem =>
      have hin := ih hmem
      cases h2 : transformTaskToEvent envOff now hd with
      | ok ev2 => simpa [transformLoop, h2] using Or.inr hin
      | error e2 => simpa [transformLoop, h2] using hin

/-- A task whose transform fails is collected, with its error, into the
transformErrors list of the loop. -/
theorem transformLoop_err_mem (envOff now : Int) (tasks : List Task) (t : Task)
    (e : String) (ht : t ∈ tasks)
    (h : transformTaskToEvent envOff now t = Except.error e) :
    (t, e) ∈ (transformLoop envOff now tasks).2 := by
  induction tasks with
  | nil => cases ht
  | cons hd tl ih =>
    cases List.mem_cons.mp ht with
    | inl heq =>
      subst heq
      simp [transformLoop, h]
    | inr hmem =>
      have hin := ih hmem
      cases h2 : transformTaskToEvent envOff now hd with
      | ok ev2 => simpa [transformLoop, h2] using hin
      | error e2 => simpa [transformLoop, h2] using Or.inr hin

/-- A write whose first attempt succeeds makes createCalendarEvent
succeed. -/
theorem createCalendarEvent_firstOk (fn : Nat → Except String Unit)
    (h : fn 0 = Except.ok ()) : createCalendarEvent fn = Except.ok () := by
  simp [createCalendarEvent, retryOperation, retryAux, h]

/-- When every write attempt succeeds, the batch writes every event and
collects no error. -/
theorem batch_all_ok (attemptsFor : NotionEvent → Nat → Except String Unit)
    (hw : ∀ ev n, attemptsFor ev n = Except.ok ()) (events : List NotionEvent) :
    createCalendarEventsBatch attemptsFor events = { success := events, errors := [] } := by
  induction events with
  | nil => rfl
  | cons hd tl ih =>
    simp [createCalendarEventsBatch, createCalendarEvent_firstOk (attemptsFor hd) (hw hd 0), ih]

/-- Every event of a batch ends up either written or collected as an
error: a failed write does not stop the remaining writes. -/
theorem batch_partition (attemptsFor : NotionEvent → Nat → Except String Unit)
    (events : List NotionEvent) :
    (createCalendarEventsBatch attemptsFor events).success.length +
      (createCalendarEventsBatch attemptsFor events).errors.length = events.length := by
  induction events with
  | nil => rfl
  | cons hd tl ih =>
    cases h : createCalendarEvent (attemptsFor hd) with
    | ok a =>
      simp only [createCalendarEventsBatch, h, List.length_cons]
      omega
    | error e =>
      simp only [createCalendarEventsBatch, h, List.length_cons]
      omega

/-- The value generateWeek produces on a run whose connectivity check and
fetch succeed with a nonempty task list. -/
theorem generateWeek_run (cfgTz : String) (envOff now : Int) (tasks : List Task)
    (attemptsFor : NotionEvent → Nat → Except String Unit) (hne : tasks.length ≠ 0) :
    generateWeek cfgTz envOff now (Except.ok ()) (Except.ok tasks) attemptsFor =
      (Except.ok
        { success := true,
          created := (createCalendarEventsBatch attemptsFor
            (transformLoop envOff now tasks).1).success.length,
          failed := (createCalendarEventsBatch attemptsFor
            (transformLoop envOff now tasks).1).errors.length,
          errors := (createCalendarEventsBatch attemptsFor
            (transformLoop envOff now tasks).1).errors.map (fun p => (p.1.name, p.2)) },
       [RunStep.verifyConn, RunStep.fetchTemplates] ++
         (transformLoop envOff now tasks).1.map (fun ev => RunStep.writeEvent ev.name)) := by
  simp [generateWeek, hne]

/-- Counterexample for C3: a run whose only task fails transformation (day
Funday) returns failed = 0 and an empty error list even though one
per-task error occurred: transform errors are collected internally but
are not reported in the returned result. -/
theorem generateWeek_drops_transform_errors :
    (transformLoop envBogota 0 [fundayTask]).2.length = 1 ∧
    generateWeek tzUTCLabel envBogota 0 (Except.ok ()) (Except.ok [fundayTask]) allOkWrites =
      (Except.ok { success := true, created := 0, failed := 0, errors := [] },
       [RunStep.verifyConn, RunStep.fetchTemplates]) :=
  ⟨rfl, rfl⟩

/-- Claim C3 as amended: on every run that is not fatally aborted, the
returned result reports success; its failed count and error list cover
exactly the write errors (final failures after retries), each as the event
name with the error message; every transformed event is attempted, so a
write failure does not stop subsequent writes; transformation errors are
excluded from writing but do not appear in the returned counts. -/
theorem generateWeek_write_error_accounting (cfgTz : String) (envOff now : Int)
    (tasks : List Task) (attemptsFor : NotionEvent → Nat → Except String Unit)
    (hne : tasks.length ≠ 0) :
    ∃ res steps,
      generateWeek cfgTz envOff now (Except.ok ()) (Except.ok tasks) attemptsFor =
        (Except.ok res, steps) ∧
      res.success = true ∧
      res.failed = (createCalendarEventsBatch attemptsFor
        (transformLoop envOff now tasks).1).errors.length ∧
      res.errors = (createCalendarEventsBatch attemptsFor
        (transformLoop envOff now tasks).1).errors.map (fun p => (p.1.name, p.2)) ∧
      res.created + res.failed = (transformLoop envOff now tasks).1.length ∧
      ∀ ev ∈ (transformLoop envOff now tasks).1, RunStep.writeEvent ev.name ∈ steps := by
  refine ⟨_, _, generateWeek_run cfgTz envOff now tasks attemptsFor hne,
    rfl, rfl, rfl, batch_partition attemptsFor (transformLoop envOff now tasks).1, ?_⟩
  intro ev hev
  simp only [List.mem_append, List.mem_map]
  right
  exact ⟨ev, hev, rfl⟩

/-- Witness for C3 as amended: one valid task, every write attempt
failing. -/
theorem generateWeek_write_error_accounting_witness :
    ([standupTask].length ≠ 0) ∧
    (∃ res steps,
      generateWeek tzUTCLabel envBogota 0 (Except.ok ()) (Except.ok [standupTask]) failWrites =
        (Except.ok res, steps) ∧
      res.success = true ∧
      res.failed = (createCalendarEventsBatch failWrites
        (transformLoop envBogota 0 [standupTask]).1).errors.length ∧
      res.errors = (createCalendarEventsBatch failWrites
        (transformLoop envBogota 0 [standupTask]).1).errors.map (fun p => (p.1.name, p.2)) ∧
      res.created + res.failed = (transformLoop envBogota 0 [standupTask]).1.length ∧
      ∀ ev ∈ (transformLoop envBogota 0 [standupTask]).1,
        RunStep.writeEvent ev.name ∈ steps) :=
  ⟨by decide,
   generateWeek_write_error_accounting tzUTCLabel envBogota 0 [standupTask] failWrites
     (by decide)⟩

/-- Counterexample for C5: in a run containing the unrecognized-day task
Funday and a task with the valid day name Monday but the malformed time
xx, the Monday task is not written either (its transform fails at
serialization), so it is false that all other tasks with valid day names
are still transformed and written. -/
theorem generateWeek_valid_day_not_written :
    dayNameToIndex dnMonday = 1 ∧
    transformTaskToEvent envBogota 0 badTimeTask = Except.error invalidTimeValueMsg ∧
    generateWeek tzUTCLabel envBogota 0 (Except.ok ())
        (Except.ok [fundayTask, badTimeTask]) allOkWrites =
      (Except.ok { success := true, created := 0, failed := 0, errors := [] },
       [RunStep.verifyConn, RunStep.fetchTemplates]) :=
  ⟨rfl, rfl, rfl⟩

/-- Claim C5 as amended: every task with an unrecognized day name fails
its transform with an error naming that day, is collected into the
transform error list, and is excluded from writing; every task whose
transform succeeds is still transformed and written (its write is
attempted; here every write attempt succeeds). -/
theorem generateWeek_invalid_day_isolated (cfgTz : String) (envOff now : Int)
    (tasks : List Task) (attemptsFor : NotionEvent → Nat → Except String Unit)
    (hw : ∀ ev n, attemptsFor ev n = Except.ok ()) (hne : tasks.length ≠ 0) :
    (∀ t : Task, dayNameToIndex t.day = -1 →
      transformTaskToEvent envOff now t = Except.error (invalidDayMsg ++ t.day)) ∧
    (∀ t ∈ tasks, dayNameToIndex t.day = -1 →
      (t, invalidDayMsg ++ t.day) ∈ (transformLoop envOff now tasks).2) ∧
    ∃ res steps,
      generateWeek cfgTz envOff now (Except.ok ()) (Except.ok tasks) attemptsFor =
        (Except.ok res, steps) ∧
      res.success = true ∧ res.failed = 0 ∧ res.errors = [] ∧
      res.created = (transformLoop envOff now tasks).1.length ∧
      ∀ t ∈ tasks, ∀ ev, transformTaskToEvent envOff now t = Except.ok ev →
        ev ∈ (transformLoop envOff now tasks).1 ∧ RunStep.writeEvent ev.name ∈ steps := by
  refine ⟨fun t ht => transform_invalid_day envOff now t ht,
    fun t ht hday => transformLoop_err_mem envOff now tasks t _ ht
      (transform_invalid_day envOff now t hday), ?_⟩
  have hbatch := batch_all_ok attemptsFor hw (transformLoop envOff now tasks).1
  refine ⟨_, _, generateWeek_run cfgTz envOff now tasks attemptsFor hne, rfl, ?_, ?_, ?_, ?_⟩
  · simp [hbatch]
  · simp [hbatch]
  · simp [hbatch]
  · intro t ht ev hev
    refine ⟨transformLoop_ok_mem envOff now tasks t ev ht hev, ?_⟩
    simp only [List.mem_append, List.mem_map]
    right
    exact ⟨ev, transformLoop_ok_mem envOff now tasks t ev ht hev, rfl⟩

/-- Witness for C5 as amended: the Funday task next to a valid Standup
task, with all writes succeeding. -/
theorem generateWeek_invalid_day_isolated_witness :
    (∀ ev n, allOkWrites ev n = Except.ok ()) ∧
    ([fundayTask, standupTask].length ≠ 0) ∧
    ((∀ t : Task, dayNameToIndex t.day = -1 →
      transformTaskToEvent envBogota 0 t = Except.error (invalidDayMsg ++ t.day)) ∧
    (∀ t ∈ [fundayTask, standupTask], dayNameToIndex t.day = -1 →
      (t, invalidDayMsg ++ t.day) ∈ (transformLoop envBogota 0 [fundayTask, standupTask]).2) ∧
    ∃ res steps,
      generateWeek tzUTCLabel envBogota 0 (Except.ok ())
          (Except.ok [fundayTask, standupTask]) allOkWrites =
        (Except.ok res, steps) ∧
      res.success = true ∧ res.failed = 0 ∧ res.errors = [] ∧
      res.created = (transformLoop envBogota 0 [fundayTask, standupTask]).1.length ∧
      ∀ t ∈ [fundayTask, standupTask], ∀ ev,
        transformTaskToEvent envBogota 0 t = Except.ok ev →
        ev ∈ (transformLoop envBogota 0 [fundayTask, standupTask]).1 ∧
          RunStep.writeEvent ev.name ∈ steps) :=
  ⟨fun _ _ => rfl, by decide,
   generateWeek_invalid_day_isolated tzUTCLabel envBogota 0 [fundayTask, standupTask]
     allOkWrites (fun _ _ => rfl) (by decide)⟩

/-- Claim C8: when the connectivity verification fails, the run ends
immediately in a top-level failure carrying that error; no template fetch
and no event write is ever attempted. -/
theorem generateWeek_halts_on_verify_failure (cfgTz : String) (envOff now : Int)
    (e : String) (fetchOut : Except String (List Task))
    (attemptsFor : NotionEvent → Nat → Except String Unit) :
    generateWeek cfgTz envOff now (Except.error e) fetchOut attemptsFor =
      (Except.error e, [RunStep.verifyConn]) ∧
    RunStep.fetchTemplates ∉
      (generateWeek cfgTz envOff now (Except.error e) fetchOut attemptsFor).2 ∧
    ∀ n, RunStep.writeEvent n ∉
      (generateWeek cfgTz envOff now (Except.error e) fetchOut attemptsFor).2 := by
  refine ⟨rfl, ?_, ?_⟩ <;> simp [generateWeek]

/-- Claim C9: the configured timezone value is never consulted: two runs
differing only in the configured timezone are identical, and the
time_zone of every produced date range is the constant America/Bogota,
which is also what the write sends (the Mexico City fallback never
fires). -/
theorem config_timezone_ignored (cfgTz1 cfgTz2 : String) (envOff now : Int)
    (verifyOut : Except String Unit) (fetchOut : Except String (List Task))
    (attemptsFor : NotionEvent → Nat → Except String Unit) :
    generateWeek cfgTz1 envOff now verifyOut fetchOut attemptsFor =
      generateWeek cfgTz2 envOff now verifyOut fetchOut attemptsFor ∧
    ∀ task ev, transformTaskToEvent envOff now task = Except.ok ev →
      ev.date.time_zone = tzBogota ∧ writtenTimeZone ev.date = tzBogota := by
  refine ⟨rfl, ?_⟩
  intro task ev h
  unfold transformTaskToEvent at h
  split at h
  · exact absurd h (by simp)
  · split at h
    · exact absurd h (by simp)
    · rename_i notionDate heq
      have hdate : ev.date = notionDate := by
        simp only [Except.ok.injEq] at h
        rw [← h]
      unfold createNotionDateObject at heq
      split at heq
      · rename_i s e hs he
        simp only [Except.ok.injEq] at heq
        have : notionDate.time_zone = tzBogota := by rw [← heq]
        constructor
        · rw [hdate, this]
        · rw [writtenTimeZone, hdate, this]
          simp [tzBogota, emptyStr]
      · exact absurd heq (by simp)
      · exact absurd heq (by simp)

/-- Witness for C9: two distinct configured timezones and the concrete
Standup task. -/
theorem config_timezone_ignored_witness :
    transformTaskToEvent envBogota 0 standupTask =
      Except.ok
        { name := nameStandup,
          date := { start := 392400000, «end» := 394200000, time_zone := tzBogota },
          notes := autoNotesMsg } ∧
    (generateWeek tzUTCLabel envBogota 0 (Except.ok ()) (Except.ok [standupTask]) allOkWrites =
      generateWeek tzMexicoCity envBogota 0 (Except.ok ()) (Except.ok [standupTask]) allOkWrites ∧
    ∀ task ev, transformTaskToEvent envBogota 0 task = Except.ok ev →
      ev.date.time_zone = tzBogota ∧ writtenTimeZone ev.date = tzBogota) :=
  ⟨by rfl,
   config_timezone_ignored tzUTCLabel tzMexicoCity envBogota 0 (Except.ok ())
     (Except.ok [standupTask]) allOkWrites⟩

/-- Claim C6: with maxAttempts 3, the retry wrapper executes at most three
attempts; a success at attempt k+1 after k failures returns that success
after exactly k+1 attempts, having waited delay times the attempt number
between consecutive attempts; when all three attempts fail it re-raises
the error of the last attempt; and a write failing twice then succeeding
on the third attempt makes createCalendarEvent succeed, so the event
counts as created. -/
theorem retryOperation_spec (fn : Nat → Except String Unit) (d : Nat) :
    (retryOperation fn 3 d).2.1 ≤ 3 ∧
    (∀ k, k < 3 → fn k = Except.ok () →
      (∀ j, j < k → ∃ e, fn j = Except.error e) →
      retryOperation fn 3 d = (Except.ok (), k + 1, delaysUpTo d k)) ∧
    (∀ e0 e1 e2, fn 0 = Except.error e0 → fn 1 = Except.error e1 →
      fn 2 = Except.error e2 →
      retryOperation fn 3 d = (Except.error e2, 3, delaysUpTo d 2)) ∧
    (∀ e0 e1, fn 0 = Except.error e0 → fn 1 = Except.error e1 →
      fn 2 = Except.ok () → createCalendarEvent fn = Except.ok ()) := by
  refine ⟨?_, ?_, ?_, ?_⟩
  · cases h0 : fn 0 with
    | ok a => simp [retryOperation, retryAux, h0]
    | error e0 =>
      cases h1 : fn 1 with
      | ok a => simp [retryOperation, retryAux, h0, h1]
      | error e1 =>
        cases h2 : fn 2 with
        | ok a => simp [retryOperation, retryAux, h0, h1, h2]
        | error e2 => simp [retryOperation, retryAux, h0, h1, h2]
  · intro k hk hok hprev
    interval_cases k
    · simp [retryOperation, retryAux, hok, delaysUpTo]
    · obtain ⟨e0, he0⟩ := hprev 0 (by omega)
      simp [retryOperation, retryAux, hok, he0, delaysUpTo, List.range_succ]
    · obtain ⟨e0, he0⟩ := hprev 0 (by omega)
      obtain ⟨e1, he1⟩ := hprev 1 (by omega)
      simp [retryOperation, retryAux, hok, he0, he1, delaysUpTo, List.range_succ]
  · intro e0 e1 e2 he0 he1 he2
    simp [retryOperation, retryAux, he0, he1, he2, delaysUpTo, List.range_succ]
  · intro e0 e1 he0 he1 hok
    simp [createCalendarEvent, retryOperation, retryAux, he0, he1, hok]

/-- Witness for C6: an operation failing twice then succeeding on the
third attempt, with the default delay 1000. -/
theorem retryOperation_spec_witness :
    ((2 : Nat) < 3 ∧ fnTwoFailThenOk 2 = Except.ok ()) ∧
    retryOperation fnTwoFailThenOk 3 1000 = (Except.ok (), 3, delaysUpTo 1000 2) ∧
    createCalendarEvent fnTwoFailThenOk = Except.ok () :=
  ⟨⟨by decide, rfl⟩,
   (retryOperation_spec fnTwoFailThenOk 1000).2.1 2 (by decide) rfl
     (fun j hj => by
       interval_cases j
       · exact ⟨errA, rfl⟩
       · exact ⟨errB, rfl⟩),
   (retryOperation_spec fnTwoFailThenOk 1000).2.2.2 errA errB rfl rfl rfl⟩

end AutoNotion
